import Mathlib

/-!
Verification of the virtual-time consumption simulation engine of the
BackendThesis repository (FastAPI energy-consumption simulator).

The Python source is shallowly embedded: floats are modelled as exact
rationals (`ℚ`), Python `int(x)` truncation as integer truncation toward
zero, Python exceptions as `Except` error values, and the user-supplied
algorithm scripts (executed with `exec` in the source) as an abstract
`Script` record carrying exactly the observations the source makes of a
script: whether it parses, whether executing it raises, the positional
parameter list of its `simulate` function, and the result of calling
`simulate` (a Python value or a raised exception).
-/

namespace BackendThesis

/-- Python `int(x)` on a real value: truncation toward zero
(`Int.tdiv` is T-division, which truncates toward zero, and the
denominator of a `ℚ` is positive, so `num.tdiv den` is exactly that). -/
def pyTrunc (q : ℚ) : ℤ := q.num.tdiv (q.den : ℤ)

/-- `int()` of an integral value is that value. -/
@[simp] theorem pyTrunc_intCast (n : ℤ) : pyTrunc ((n : ℚ)) = n := by
  simp [pyTrunc]

/-- `int(0) = 0`. -/
@[simp] theorem pyTrunc_zero : pyTrunc 0 = 0 := by
  simp [pyTrunc]

/-- Embeds `models/simulation_models.py`, class `Simulation` (the fields the
core engine reads; `simulation_start_time` is the optional anchor instant as
Unix seconds). -/
structure Simulation where
  id : ℕ
  is_active : Bool
  output_unit : String
  time_unit : String
  time_speed : ℚ
  simulation_start_time : Option ℚ
  deriving DecidableEq, Repr

/-- Embeds `utils/publisher.py`, `calculate_simulation_time`.  `real_time`
is the wall-clock instant `time.time()` observed by the call. -/
def calculate_simulation_time (simulation : Simulation) (real_time : ℚ) : ℤ :=
  match simulation.simulation_start_time with
  | some start_timestamp =>
      -- elapsed_real = real_time - start_timestamp;
      -- elapsed_simulation = elapsed_real * time_speed
      pyTrunc (start_timestamp + (real_time - start_timestamp) * simulation.time_speed)
  | none =>
      pyTrunc (real_time * simulation.time_speed)

/-- Embeds `services/simulation_data_service.py`,
`calculate_simulation_time_for_timestamp`. -/
def calculate_simulation_time_for_timestamp (current_timestamp : ℤ) (time_speed : ℚ)
    (start_timestamp : ℤ) : ℤ :=
  pyTrunc ((start_timestamp : ℚ) + ((current_timestamp : ℚ) - (start_timestamp : ℚ)) * time_speed)

/-- A Python exception class, as distinguished by the engine. -/
inductive PyExc where
  | syntaxError
  | valueError
  | typeError
  | runtimeError
  deriving DecidableEq, Repr

/-- A Python value as returned by a `simulate` call: an exact numeric value
(int or float, modelled together as `ℚ`), one of the non-finite floats, or a
non-numeric value (represented by strings, the case the spec discusses). -/
inductive PyVal where
  | num (q : ℚ)
  | nan
  | inf
  | ninf
  | str (s : String)
  deriving DecidableEq, Repr

/-- Python `+` on such values: numbers add, `nan` absorbs, opposite
infinities give `nan`, and adding a number to a string raises `TypeError`. -/
def pyAdd : PyVal → PyVal → Except PyExc PyVal
  | .str a, .str b => .ok (.str (a ++ b))
  | .str _, _ => .error .typeError
  | _, .str _ => .error .typeError
  | .nan, _ => .ok .nan
  | _, .nan => .ok .nan
  | .inf, .ninf => .ok .nan
  | .ninf, .inf => .ok .nan
  | .inf, _ => .ok .inf
  | _, .inf => .ok .inf
  | .ninf, _ => .ok .ninf
  | _, .ninf => .ok .ninf
  | .num a, .num b => .ok (.num (a + b))

/-- The `extra_params` dict passed to every algorithm invocation
(`utils/publisher.py` `calculate_consumption` and
`services/simulation_data_service.py` `generate_simulation_data`). -/
structure ExtraParams where
  base_interval : ℤ
  time_unit : String
  time_speed : ℚ
  factor : ℚ
  deriving DecidableEq, Repr

/-- Abstraction of a user-supplied algorithm script (executed with `exec` in
the source).  It records exactly the observations the engine makes of a
script: emptiness of the text, whether `ast.parse` succeeds, whether
executing the module body raises, the positional parameter names of the
`simulate` function definition (`none` when no such function is defined),
and the behaviour of calling `simulate` on given arguments. -/
structure Script where
  is_empty : Bool
  parses : Bool
  exec_raises : Bool
  simulate_params : Option (List String)
  run : ℤ → ℚ → ℚ → ℤ → ℤ → ExtraParams → Except PyExc PyVal

/-- Embeds `utils/publisher.py`, `execute_custom_simulation`: `exec` the
script (a non-parsing script raises `SyntaxError`, a raising module body
propagates its exception), raise `ValueError` when no `simulate` function
was defined, otherwise call it and return its result or exception. -/
def execute_custom_simulation (custom_script : Script) (current_time : ℤ)
    (base_consumption peak_consumption : ℚ) (cycle_duration on_duration : ℤ)
    (extra_params : ExtraParams) : Except PyExc PyVal :=
  if ¬ custom_script.parses then .error .syntaxError
  else if custom_script.exec_raises then .error .runtimeError
  else if custom_script.simulate_params.isNone then .error .valueError
  else custom_script.run current_time base_consumption peak_consumption
    cycle_duration on_duration extra_params

/-- The required positional parameter names of `simulate`
(`schemes/algorithms_schemes.py`, `required_args`). -/
def required_args : List String :=
  ["current_time", "base_consumption", "peak_consumption",
   "cycle_duration", "on_duration", "extra_params"]

/-- The empty `extra_params` dict used by the validator's test invocation. -/
def emptyExtraParams : ExtraParams :=
  { base_interval := 0, time_unit := "", time_speed := 0, factor := 0 }

/-- Embeds `schemes/algorithms_schemes.py`, `_validate_algorithm_script`:
reject empty scripts, scripts with syntax errors, scripts not defining
`simulate`, a `simulate` whose positional-parameter count differs from six
or whose parameter names differ from the required ones; then run `simulate`
on the synthetic test inputs `(1000, 10.0, 20.0, 60, 30, {})` and reject a
raised exception, a non-numeric result, or a NaN/infinite result.
`.ok ()` means the pydantic validator accepts the script (it is stored);
`.error msg` means it raises `ValueError msg` (the script is never stored). -/
def _validate_algorithm_script (script_code : Script) : Except String Unit :=
  if script_code.is_empty then .error "Script cannot be empty."
  else if ¬ script_code.parses then .error "Script has a syntax error"
  else match script_code.simulate_params with
  | none => .error "Script must contain a function named simulate."
  | some args =>
    if args.length ≠ required_args.length then
      .error "The simulate function must have exactly 6 arguments"
    else if args ≠ required_args then
      .error "Argument name mismatch"
    else if script_code.exec_raises then
      .error "The simulate function failed during test execution"
    else match script_code.run 1000 10 20 60 30 emptyExtraParams with
      | .error _ => .error "The simulate function failed during test execution"
      | .ok (.num _) => .ok ()
      | .ok .nan => .error "The simulate function returned a non-finite number"
      | .ok .inf => .error "The simulate function returned a non-finite number"
      | .ok .ninf => .error "The simulate function returned a non-finite number"
      | .ok (.str _) => .error "The simulate function must return a number"

/-- Embeds `utils/unit_converter.py`, `get_time_multiplier`
(`multipliers.get(time_unit, 1)`). -/
def get_time_multiplier (time_unit : String) : ℤ :=
  if time_unit = "seconds" then 1
  else if time_unit = "minutes" then 60
  else if time_unit = "hours" then 3600
  else if time_unit = "days" then 86400
  else 1

/-- Embeds `utils/unit_converter.py`, `watts_to_unit`; an unsupported unit
raises `ValueError` (modelled as `.error`). -/
def watts_to_unit (watts : ℚ) (target_unit : String) : Except String ℚ :=
  if target_unit = "W" then .ok watts
  else if target_unit = "kW" then .ok (watts / 1000)
  else if target_unit = "kWh/day" then .ok (watts * 24 / 1000)
  else if target_unit = "kWh/month" then .ok (watts * 720 / 1000)
  else if target_unit = "kWh/year" then .ok (watts * 8760 / 1000)
  else .error "Unsupported unit"

/-- Embeds `utils/unit_converter.py`, `unit_to_watts`. -/
def unit_to_watts (value : ℚ) (source_unit : String) : Except String ℚ :=
  if source_unit = "W" then .ok value
  else if source_unit = "kW" then .ok (value * 1000)
  else if source_unit = "kWh/day" then .ok (value * 1000 / 24)
  else if source_unit = "kWh/month" then .ok (value * 1000 / 720)
  else if source_unit = "kWh/year" then .ok (value * 1000 / 8760)
  else .error "Unsupported unit"

/-- Embeds `models/device_simulation_models.py`, `DeviceSimulation` (the
fields the engine reads).  The source stores `algorithm_id` and fetches the
script text through `get_consumption_algorithms`; the model inlines that
lookup by carrying the device's script directly. -/
structure DeviceSimulation where
  id : ℕ
  name : String
  consumption_value : ℚ
  peak_consumption : ℚ
  cycle_duration : ℤ
  on_duration : ℤ
  algorithm : Script

/-- One device's algorithm invocation inside the loop of
`calculate_consumption` (`utils/publisher.py`). -/
def deviceRun (device : DeviceSimulation) (simulation_time : ℤ)
    (extra_params : ExtraParams) : Except PyExc PyVal :=
  execute_custom_simulation device.algorithm simulation_time
    device.consumption_value device.peak_consumption
    device.cycle_duration device.on_duration extra_params

/-- The `devices_consumption` accumulation loop of `calculate_consumption`:
a device whose invocation raises contributes `0`; the returned value (even
a non-numeric or non-finite one) is added to the accumulator with Python
`+`, whose own `TypeError` is *not* caught inside the loop. -/
def consumptionFold (simulation_time : ℤ) (extra_params : ExtraParams) :
    List DeviceSimulation → PyVal → Except PyExc PyVal
  | [], devices_consumption => .ok devices_consumption
  | device :: rest, devices_consumption =>
    let device_consumption : PyVal :=
      match deviceRun device simulation_time extra_params with
      | .error _ => .num 0
      | .ok v => v
    match pyAdd devices_consumption device_consumption with
    | .error e => .error e
    | .ok acc => consumptionFold simulation_time extra_params rest acc

/-- The `extra_params` dict built by `calculate_consumption` from the
active simulation. -/
def simExtraParams (simulation : Simulation) : ExtraParams :=
  { base_interval := get_time_multiplier simulation.time_unit
    time_unit := simulation.time_unit
    time_speed := simulation.time_speed
    factor := 1 }

/-- Embeds `utils/publisher.py`, `calculate_consumption`: compute the
simulation time and `extra_params` once, evaluate every device (a raising
device contributes 0 watts), and return the device sum plus the meter's
`base_consumption`. -/
def calculate_consumption (devices_simulation : List DeviceSimulation)
    (base_consumption : ℚ) (simulation : Simulation) (real_time : ℚ) :
    Except PyExc PyVal :=
  let simulation_time := calculate_simulation_time simulation real_time
  let extra_params := simExtraParams simulation
  match consumptionFold simulation_time extra_params devices_simulation (.num 0) with
  | .error e => .error e
  | .ok devices_consumption => pyAdd devices_consumption (.num base_consumption)

/-- The sample-timestamp `while` loop of `generate_simulation_data`
(`services/simulation_data_service.py`, `while current_timestamp <=
end_timestamp: ...; current_timestamp += sample_interval_seconds`), made
structurally recursive on a fuel counter. -/
def sampleLoop (end_timestamp interval : ℤ) : ℕ → ℤ → List ℤ
  | 0, _ => []
  | fuel + 1, current_timestamp =>
    if current_timestamp ≤ end_timestamp then
      current_timestamp :: sampleLoop end_timestamp interval fuel (current_timestamp + interval)
    else []

/-- The list of sample timestamps produced by `generate_simulation_data`
for a positive `sample_interval_seconds`.  The fuel
`(end - start).toNat + 1` exceeds the number of loop iterations whenever
`interval ≥ 1`, so the fueled loop coincides with the source's `while`
loop; for a non-positive interval the source loop would never terminate,
and the model is left `[]` there. -/
def sampleTimestamps (start_timestamp end_timestamp interval : ℤ) : List ℤ :=
  if 0 < interval then
    sampleLoop end_timestamp interval ((end_timestamp - start_timestamp).toNat + 1)
      start_timestamp
  else []

/-- The `(unix_timestamp, simulation_time)` pairs of the data points of
`generate_simulation_data`: one per sample timestamp, the simulation time
computed by `calculate_simulation_time_for_timestamp` anchored at
`start_timestamp`. -/
def generateSamplePoints (start_timestamp end_timestamp interval : ℤ)
    (time_speed : ℚ) : List (ℤ × ℤ) :=
  (sampleTimestamps start_timestamp end_timestamp interval).map fun t =>
    (t, calculate_simulation_time_for_timestamp t time_speed start_timestamp)

/-- The device-selection step of `generate_simulation_data`
(`services/simulation_data_service.py` lines 57-66): with a falsy
`device_ids` (absent or empty) all of the meter's devices are used; with a
non-empty `device_ids`, for *each* requested id the full list of matching
meter devices is appended again. -/
def selectDevices (device_ids : Option (List ℕ))
    (meter_devices : List DeviceSimulation) : List DeviceSimulation :=
  match device_ids with
  | none => meter_devices
  | some ids =>
    if ids = [] then meter_devices
    else ids.foldl
      (fun device_simulations _ =>
        device_simulations ++ meter_devices.filter (fun d => d.id ∈ ids))
      []

/-- Embeds `repository/settings_repository.py`,
`get_first_active_simulation`: the first stored simulation whose
`is_active` flag is set. -/
def get_first_active_simulation (sims : List Simulation) : Option Simulation :=
  sims.find? (fun s => s.is_active)

/-- Embeds `repository/simulation_repository.py`, `desactive_simulation`:
clear the `is_active` flag of the simulation with the given id. -/
def desactive_simulation (simulation_id : ℕ) (sims : List Simulation) :
    List Simulation :=
  sims.map fun s => if s.id = simulation_id then { s with is_active := false } else s

/-- Embeds `services/simulation_service.py`, `create_simulation_service`,
acting on the list of stored simulations.  `new_id` is the fresh primary
key the insert generates.  The source reads
`current_simulation.is_active` without a `None` check, so when no active
simulation exists the request dies with an `AttributeError` (modelled as
`none`); the insert itself is assumed to succeed, as the source only
handles the successful branch.  After the insert the previously active
simulation is deactivated. -/
def create_simulation_service (request : Simulation) (new_id : ℕ)
    (sims : List Simulation) : Option (List Simulation) :=
  match get_first_active_simulation sims with
  | none => none
  | some current_simulation =>
    let new_simulation : Simulation := { request with id := new_id }
    let sims2 := sims ++ [new_simulation]
    if current_simulation.is_active then
      some (desactive_simulation current_simulation.id sims2)
    else some sims2

/-- The number of stored simulations whose `is_active` flag is set. -/
def activeCount (sims : List Simulation) : ℕ :=
  sims.countP fun s => s.is_active

/-- **C1.** `calculate_simulation_time` returns
`int(anchor + (now - anchor) * time_speed)` when the anchor
(`simulation_start_time`) is set, and `int(now * time_speed)` (wall clock
scaled directly from the Unix epoch) when it is not. -/
theorem C1_calculate_simulation_time_spec (simulation : Simulation) (now : ℚ) :
    (∀ anchor : ℚ, simulation.simulation_start_time = some anchor →
      calculate_simulation_time simulation now =
        pyTrunc (anchor + (now - anchor) * simulation.time_speed)) ∧
    (simulation.simulation_start_time = none →
      calculate_simulation_time simulation now = pyTrunc (now * simulation.time_speed)) := by
  constructor
  · intro anchor h
    simp [calculate_simulation_time, h]
  · intro h
    simp [calculate_simulation_time, h]

/-- Witness for C1 at a concrete anchored configuration: anchor 100,
speed 2, now 150 gives simulation time `int(100 + 50 * 2) = 200`. -/
theorem C1_calculate_simulation_time_spec_witness :
    calculate_simulation_time ⟨1, true, "W", "seconds", 2, some 100⟩ 150 =
      pyTrunc (100 + (150 - 100) * 2) :=
  (C1_calculate_simulation_time_spec ⟨1, true, "W", "seconds", 2, some 100⟩ 150).1 100 rfl

/-- The five supported power units (`utils/unit_converter.py`,
`is_valid_unit`). -/
def supported_units : List String := ["W", "kW", "kWh/day", "kWh/month", "kWh/year"]

/-- **C2 (counterexample).** No call site rejects a non-positive
`time_speed`: the batch generator computes three full sample points under
`time_speed = 0` (rather than refusing before any evaluation), and the
live-publish path computes a simulation time under `time_speed = -2`. -/
theorem C2_no_speed_validation_counterexample :
    generateSamplePoints 0 2 1 0 = [(0, 0), (1, 0), (2, 0)] ∧
    calculate_simulation_time ⟨1, true, "W", "seconds", -2, none⟩ 100 = -200 := by
  constructor
  · have hts : sampleTimestamps 0 2 1 = [0, 1, 2] := by decide
    simp only [generateSamplePoints, hts, List.map_cons, List.map_nil,
      calculate_simulation_time_for_timestamp]
    norm_num
  · show pyTrunc (100 * (-2 : ℚ)) = -200
    have h : (100 * (-2 : ℚ)) = ((-200 : ℤ) : ℚ) := by norm_num
    rw [h, pyTrunc_intCast]

/-- **C2 (amended).** Neither call site validates `time_speed`: for every
configuration with `time_speed ≤ 0`, the live path still computes
`int(now * time_speed)` (unanchored) and the batch path still computes
`int(start + (t - start) * time_speed)`, and batch generation still
produces sample points; no `InvalidClockConfig` error exists in the code. -/
theorem C2_nonpositive_speed_accepted (simulation : Simulation) (now : ℚ)
    (t s interval start_t end_t : ℤ)
    (hspeed : simulation.time_speed ≤ 0)
    (hanchor : simulation.simulation_start_time = none)
    (hi : 0 < interval) (hrange : start_t ≤ end_t) :
    calculate_simulation_time simulation now = pyTrunc (now * simulation.time_speed) ∧
    calculate_simulation_time_for_timestamp t simulation.time_speed s =
      pyTrunc ((s : ℚ) + ((t : ℚ) - (s : ℚ)) * simulation.time_speed) ∧
    generateSamplePoints start_t end_t interval simulation.time_speed ≠ [] := by
  refine ⟨by simp [calculate_simulation_time, hanchor], rfl, ?_⟩
  simp only [generateSamplePoints, sampleTimestamps, if_pos hi]
  have hfuel : (end_t - start_t).toNat + 1 = ((end_t - start_t).toNat) + 1 := rfl
  simp [sampleLoop, hrange]

/-- Witness for C2's amended theorem: speed `0`, unanchored, batch range
`[0, 2]` with interval `1`. -/
theorem C2_nonpositive_speed_accepted_witness :
    calculate_simulation_time ⟨1, true, "W", "seconds", 0, none⟩ 5 =
      pyTrunc (5 * (0 : ℚ)) ∧
    calculate_simulation_time_for_timestamp 7 (0 : ℚ) 3 =
      pyTrunc ((3 : ℚ) + ((7 : ℚ) - (3 : ℚ)) * 0) ∧
    generateSamplePoints 0 2 1 (0 : ℚ) ≠ [] := by
  have h := C2_nonpositive_speed_accepted ⟨1, true, "W", "seconds", 0, none⟩ 5 7 3 1 0 2
    le_rfl rfl (by norm_num) (by norm_num)
  exact h

/-- **C8.** For every `watts ≥ 0` and each of the five supported power
units, converting to the unit and back (`unit_to_watts` after
`watts_to_unit`) returns exactly `watts`: the two conversions are algebraic
inverses (exact over rational arithmetic). -/
theorem C8_unit_roundtrip (watts : ℚ) (hw : 0 ≤ watts) (u : String)
    (hu : u ∈ supported_units) :
    (watts_to_unit watts u).bind (fun v => unit_to_watts v u) = .ok watts := by
  fin_cases hu <;>
    simp [watts_to_unit, unit_to_watts, Except.bind]

/-- Witness for C8 at `watts = 2`, unit `kW`. -/
theorem C8_unit_roundtrip_witness :
    (watts_to_unit 2 "kW").bind (fun v => unit_to_watts v "kW") = .ok 2 :=
  C8_unit_roundtrip 2 (by norm_num) "kW" (by simp [supported_units])

/-- Characterization of acceptance: the validator accepts a script only if
it parses, defines `simulate` with exactly the required parameter list,
its module body does not raise, and the test invocation returns a finite
number. -/
theorem validate_ok_conditions (s : Script)
    (h : _validate_algorithm_script s = .ok ()) :
    s.parses = true ∧ s.simulate_params = some required_args ∧
    s.exec_raises = false ∧
    ∃ q : ℚ, s.run 1000 10 20 60 30 emptyExtraParams = .ok (.num q) := by
  unfold _validate_algorithm_script at h
  split at h
  · exact absurd h (by simp)
  · split at h
    · exact absurd h (by simp)
    · rename_i hp
      split at h
      · exact absurd h (by simp)
      · rename_i args hargs
        split at h
        · exact absurd h (by simp)
        · split at h
          · exact absurd h (by simp)
          · rename_i hlen hnames
            split at h
            · exact absurd h (by simp)
            · rename_i hexec
              split at h
              · exact absurd h (by simp)
              · rename_i q hq
                refine ⟨by simpa using hp, ?_, by simpa using hexec, q, hq⟩
                rw [hargs]
                simp at hnames
                rw [hnames]
              · exact absurd h (by simp)
              · exact absurd h (by simp)
              · exact absurd h (by simp)
              · exact absurd h (by simp)

/-- Any `Except String Unit` that is not `ok ()` is an error. -/
theorem except_unit_not_ok {e : Except String Unit} (h : e ≠ .ok ()) :
    ∃ msg, e = .error msg := by
  cases e with
  | error m => exact ⟨m, rfl⟩
  | ok u => cases u; exact absurd rfl h

/-- A `simulate` test result the contract rejects: a raised exception, a
non-numeric value, or a non-finite number. -/
def badTestResult : Except PyExc PyVal → Prop
  | .ok (.num _) => False
  | _ => True

/-- The accepted example script of the claim: six correctly named
parameters, returning `base_consumption + peak_consumption`. -/
def addScript : Script :=
  { is_empty := false
    parses := true
    exec_raises := false
    simulate_params := some required_args
    run := fun _ base_consumption peak_consumption _ _ _ =>
      .ok (.num (base_consumption + peak_consumption)) }

/-- **C3.** Algorithm validation rejects (with a `ValueError`, so pydantic
rejects the create/update and the script is never stored) every script that
fails to parse, every script whose `simulate` has a positional-parameter
count other than six, and every script whose test invocation on
`(1000, 10.0, 20.0, 60, 30, {})` raises, returns a non-number, or returns
NaN/infinity; and it accepts the six-parameter script returning
`base_consumption + peak_consumption`. -/
theorem C3_validate_algorithm_script (s₁ s₂ s₃ : Script) (args : List String)
    (h₁ : s₁.parses = false)
    (h₂ : s₂.simulate_params = some args) (hlen : args.length ≠ 6)
    (h₃ : badTestResult (s₃.run 1000 10 20 60 30 emptyExtraParams)) :
    (∃ m, _validate_algorithm_script s₁ = .error m) ∧
    (∃ m, _validate_algorithm_script s₂ = .error m) ∧
    (∃ m, _validate_algorithm_script s₃ = .error m) ∧
    _validate_algorithm_script addScript = .ok () := by
  refine ⟨?_, ?_, ?_, ?_⟩
  · refine except_unit_not_ok fun h => ?_
    have := (validate_ok_conditions s₁ h).1
    rw [h₁] at this
    exact Bool.false_ne_true this
  · refine except_unit_not_ok fun h => ?_
    have := (validate_ok_conditions s₂ h).2.1
    rw [h₂] at this
    have hargs : args = required_args := by simpa using this
    rw [hargs] at hlen
    exact hlen rfl
  · refine except_unit_not_ok fun h => ?_
    obtain ⟨q, hq⟩ := (validate_ok_conditions s₃ h).2.2.2
    rw [hq] at h₃
    exact h₃
  · rfl

/-- Witness for C3: a non-parsing script, a five-parameter script, and a
NaN-returning script are all rejected, while `addScript` is accepted. -/
theorem C3_validate_algorithm_script_witness :
    (∃ m, _validate_algorithm_script
      { is_empty := false, parses := false, exec_raises := false,
        simulate_params := some required_args,
        run := fun _ _ _ _ _ _ => .ok (.num 0) } = .error m) ∧
    (∃ m, _validate_algorithm_script
      { is_empty := false, parses := true, exec_raises := false,
        simulate_params := some ["a", "b", "c", "d", "e"],
        run := fun _ _ _ _ _ _ => .ok (.num 0) } = .error m) ∧
    (∃ m, _validate_algorithm_script
      { is_empty := false, parses := true, exec_raises := false,
        simulate_params := some required_args,
        run := fun _ _ _ _ _ _ => .ok .nan } = .error m) ∧
    _validate_algorithm_script addScript = .ok () :=
  C3_validate_algorithm_script
    { is_empty := false, parses := false, exec_raises := false,
      simulate_params := some required_args,
      run := fun _ _ _ _ _ _ => .ok (.num 0) }
    { is_empty := false, parses := true, exec_raises := false,
      simulate_params := some ["a", "b", "c", "d", "e"],
      run := fun _ _ _ _ _ _ => .ok (.num 0) }
    { is_empty := false, parses := true, exec_raises := false,
      simulate_params := some required_args,
      run := fun _ _ _ _ _ _ => .ok .nan }
    ["a", "b", "c", "d", "e"] rfl rfl (by decide) (by trivial)

/-- When every device's invocation returns the number `f d`, the
accumulation loop returns the accumulator plus the sum of those numbers. -/
theorem consumptionFold_all_num (t : ℤ) (ep : ExtraParams)
    (f : DeviceSimulation → ℚ) :
    ∀ (l : List DeviceSimulation) (a : ℚ),
      (∀ d ∈ l, deviceRun d t ep = .ok (.num (f d))) →
      consumptionFold t ep l (.num a) = .ok (.num (a + (l.map f).sum)) := by
  intro l
  induction l with
  | nil => intro a _; simp [consumptionFold]
  | cons d rest ih =>
    intro a h
    have hd := h d (List.mem_cons_self d rest)
    have hrest : ∀ x ∈ rest, deviceRun x t ep = .ok (.num (f x)) :=
      fun x hx => h x (List.mem_cons_of_mem d hx)
    simp only [consumptionFold, hd, pyAdd]
    rw [ih (a + f d) hrest]
    simp [add_assoc]

/-- A constant script: parses, defines `simulate` with the required
parameters, and always returns the number `q`. -/
def constScript (q : ℚ) : Script :=
  { is_empty := false
    parses := true
    exec_raises := false
    simulate_params := some required_args
    run := fun _ _ _ _ _ _ => .ok (.num q) }

/-- A device driven by a constant algorithm returning `q` watts. -/
def constDevice (i : ℕ) (q : ℚ) : DeviceSimulation :=
  { id := i
    name := "device"
    consumption_value := q
    peak_consumption := q
    cycle_duration := 60
    on_duration := 30
    algorithm := constScript q }

/-- A default simulation record: active, unit `W`, seconds, speed 1, no
anchor. -/
def simDefault : Simulation :=
  ⟨1, true, "W", "seconds", 1, none⟩

/-- `calculate_consumption` as base plus device sum, for any contribution
assignment `f` realizing every device's invocation. -/
theorem calculate_consumption_eq_base_add_sum
    (l : List DeviceSimulation) (b : ℚ) (s : Simulation) (n : ℚ)
    (f : DeviceSimulation → ℚ)
    (h : ∀ d ∈ l, deviceRun d (calculate_simulation_time s n)
      (simExtraParams s) = .ok (.num (f d))) :
    calculate_consumption l b s n = .ok (.num (b + (l.map f).sum)) := by
  show (match consumptionFold (calculate_simulation_time s n)
      (simExtraParams s) l (.num 0) with
    | .error e => (.error e : Except PyExc PyVal)
    | .ok devices_consumption => pyAdd devices_consumption (.num b)) =
      .ok (.num (b + (l.map f).sum))
  rw [consumptionFold_all_num (calculate_simulation_time s n)
    (simExtraParams s) f l 0 h]
  simp [pyAdd, add_comm]

/-- **C6.** The aggregate equals the meter's `base_consumption` plus the
sum of the per-device contributions, with no clamping or rounding (negative
contributions included, as `f` ranges over all of `ℚ`); in particular a
50 W base load with devices contributing 10 W and 20 W totals 80 W, and
80 W converts to 1.92 kWh/day. -/
theorem C6_aggregate_sum (devices : List DeviceSimulation)
    (base_consumption : ℚ) (simulation : Simulation) (now : ℚ)
    (f : DeviceSimulation → ℚ)
    (h : ∀ d ∈ devices,
      deviceRun d (calculate_simulation_time simulation now)
        (simExtraParams simulation) = .ok (.num (f d))) :
    calculate_consumption devices base_consumption simulation now =
      .ok (.num (base_consumption + (devices.map f).sum)) ∧
    calculate_consumption [constDevice 1 10, constDevice 2 20] 50 simDefault 0 =
      .ok (.num 80) ∧
    watts_to_unit 80 "kWh/day" = .ok (192 / 100) := by
  refine ⟨calculate_consumption_eq_base_add_sum devices base_consumption
    simulation now f h, ?_, ?_⟩
  · have h2 : ∀ d ∈ [constDevice 1 10, constDevice 2 20],
        deviceRun d (calculate_simulation_time simDefault 0)
          (simExtraParams simDefault) = .ok (.num d.consumption_value) := by
      intro d hd
      simp only [List.mem_cons, List.not_mem_nil, or_false] at hd
      rcases hd with rfl | rfl
      · rfl
      · rfl
    rw [calculate_consumption_eq_base_add_sum _ _ _ _ _ h2]
    norm_num [constDevice]
  · simp [watts_to_unit]
    norm_num

/-- Witness for C6: the general sum statement applied to the concrete
two-device list contributing 10 W and 20 W over a 50 W base load. -/
theorem C6_aggregate_sum_witness :
    calculate_consumption [constDevice 1 10, constDevice 2 20] 50 simDefault 0 =
      .ok (.num (50 + (([constDevice 1 10, constDevice 2 20]).map
        (fun d => d.consumption_value)).sum)) ∧
    calculate_consumption [constDevice 1 10, constDevice 2 20] 50 simDefault 0 =
      .ok (.num 80) ∧
    watts_to_unit 80 "kWh/day" = .ok (192 / 100) :=
  C6_aggregate_sum [constDevice 1 10, constDevice 2 20] 50 simDefault 0
    (fun d => d.consumption_value) (by
      intro d hd
      simp only [List.mem_cons, List.not_mem_nil, or_false] at hd
      rcases hd with rfl | rfl
      · rfl
      · rfl)

/-- Whether a Python value is a string. -/
def PyVal.isStr : PyVal → Bool
  | .str _ => true
  | _ => false

/-- Adding `0` (a failed device's contribution) to a non-string
accumulator leaves it unchanged. -/
theorem pyAdd_num_zero (v : PyVal) (h : v.isStr = false) :
    pyAdd v (.num 0) = .ok v := by
  cases v <;> simp_all [pyAdd, PyVal.isStr]

/-- `pyAdd` starting from a non-string accumulator never produces a
string. -/
theorem pyAdd_ok_isStr (a b c : PyVal) (h : pyAdd a b = .ok c)
    (ha : a.isStr = false) : c.isStr = false := by
  cases a <;> cases b <;>
    simp_all [pyAdd, PyVal.isStr] <;>
    (subst h; rfl)

/-- Dropping a device whose invocation raises from anywhere in the list
does not change the accumulation loop's result (for any non-string
accumulator, in particular the initial `0`). -/
theorem consumptionFold_skip_failing (t : ℤ) (ep : ExtraParams)
    (d : DeviceSimulation) (e : PyExc)
    (hd : deviceRun d t ep = .error e) (post : List DeviceSimulation) :
    ∀ (pre : List DeviceSimulation) (acc : PyVal), acc.isStr = false →
      consumptionFold t ep (pre ++ d :: post) acc =
        consumptionFold t ep (pre ++ post) acc := by
  intro pre
  induction pre with
  | nil =>
    intro acc hacc
    simp only [List.nil_append, consumptionFold, hd]
    rw [pyAdd_num_zero acc hacc]
  | cons p pre ih =>
    intro acc hacc
    simp only [List.cons_append, consumptionFold]
    cases hadd : pyAdd acc
        (match deviceRun p t ep with | .error _ => PyVal.num 0 | .ok v => v) with
    | error e2 => rfl
    | ok acc2 => exact ih acc2 (pyAdd_ok_isStr acc _ acc2 hadd hacc)

/-- Unfolding of `calculate_consumption` (the `let` bindings reduced). -/
theorem calculate_consumption_def (l : List DeviceSimulation) (b : ℚ)
    (s : Simulation) (n : ℚ) :
    calculate_consumption l b s n =
      match consumptionFold (calculate_simulation_time s n)
          (simExtraParams s) l (.num 0) with
      | .error e => (.error e : Except PyExc PyVal)
      | .ok devices_consumption => pyAdd devices_consumption (.num b) := rfl

/-- **C4.** A device whose algorithm invocation raises (including a script
that fails to define `simulate`) contributes exactly 0 watts: the
aggregate over any list containing it equals the aggregate over the same
list with the failing device absent, so the other devices' contributions
are untouched and the evaluation never aborts because of the failure. -/
theorem C4_failing_device_isolated (pre post : List DeviceSimulation)
    (d : DeviceSimulation) (base_consumption : ℚ) (simulation : Simulation)
    (now : ℚ) (e : PyExc)
    (hd : deviceRun d (calculate_simulation_time simulation now)
      (simExtraParams simulation) = .error e) :
    calculate_consumption (pre ++ d :: post) base_consumption simulation now =
      calculate_consumption (pre ++ post) base_consumption simulation now := by
  rw [calculate_consumption_def, calculate_consumption_def,
    consumptionFold_skip_failing _ _ d e hd post pre (.num 0) rfl]

/-- A script whose module body raises on `exec`. -/
def raisingScript : Script :=
  { is_empty := false
    parses := true
    exec_raises := true
    simulate_params := some required_args
    run := fun _ _ _ _ _ _ => .ok (.num 0) }

/-- A device whose algorithm's module body raises. -/
def raisingDevice : DeviceSimulation :=
  { id := 3
    name := "bad"
    consumption_value := 7
    peak_consumption := 7
    cycle_duration := 60
    on_duration := 30
    algorithm := raisingScript }

/-- Witness for C4: a raising device between two constant devices changes
nothing. -/
theorem C4_failing_device_isolated_witness :
    calculate_consumption [constDevice 1 10, raisingDevice, constDevice 2 20]
        50 simDefault 0 =
      calculate_consumption [constDevice 1 10, constDevice 2 20] 50 simDefault 0 :=
  C4_failing_device_isolated [constDevice 1 10] [constDevice 2 20]
    raisingDevice 50 simDefault 0 .runtimeError rfl

/-- A script that runs without raising and returns the float `nan`. -/
def nanScript : Script :=
  { is_empty := false
    parses := true
    exec_raises := false
    simulate_params := some required_args
    run := fun _ _ _ _ _ _ => .ok .nan }

/-- A device driven by `nanScript`. -/
def nanDevice : DeviceSimulation :=
  { id := 4
    name := "nan-device"
    consumption_value := 1
    peak_consumption := 1
    cycle_duration := 60
    on_duration := 30
    algorithm := nanScript }

/-- **C5 (counterexample).** A device whose validated algorithm returns
NaN without raising is *not* caught as a failure: with a 50 W meter base
load, the published total is NaN, not the 50 W that a 0-watt contribution
would give. -/
theorem C5_nonfinite_not_caught_counterexample :
    calculate_consumption [nanDevice] 50 simDefault 0 = .ok .nan ∧
    (Except.ok PyVal.nan : Except PyExc PyVal) ≠ .ok (.num 50) := by
  exact ⟨rfl, by simp⟩

/-- **C5 (amended).** A non-finite or non-numeric return value is not
caught by the caller: a device returning NaN makes the whole aggregate
NaN (the value propagates into the published total), and a device
returning a string makes the accumulation raise an uncaught `TypeError`
that aborts the evaluation; only invocations that raise are converted to
a 0-watt contribution. -/
theorem C5_nonfinite_propagates (d : DeviceSimulation)
    (base_consumption : ℚ) (simulation : Simulation) (now : ℚ) (s : String) :
    (deviceRun d (calculate_simulation_time simulation now)
        (simExtraParams simulation) = .ok .nan →
      calculate_consumption [d] base_consumption simulation now = .ok .nan) ∧
    (deviceRun d (calculate_simulation_time simulation now)
        (simExtraParams simulation) = .ok (.str s) →
      calculate_consumption [d] base_consumption simulation now =
        .error .typeError) := by
  constructor
  · intro hd
    rw [calculate_consumption_def]
    simp [consumptionFold, hd, pyAdd]
  · intro hd
    rw [calculate_consumption_def]
    simp [consumptionFold, hd, pyAdd]

/-- A device whose algorithm returns the string `"oops"`. -/
def strDevice : DeviceSimulation :=
  { id := 5
    name := "str-device"
    consumption_value := 1
    peak_consumption := 1
    cycle_duration := 60
    on_duration := 30
    algorithm :=
      { is_empty := false
        parses := true
        exec_raises := false
        simulate_params := some required_args
        run := fun _ _ _ _ _ _ => .ok (.str "oops") } }

/-- Witness for C5's amended theorem: the NaN half at `nanDevice` and the
string half at `strDevice`. -/
theorem C5_nonfinite_propagates_witness :
    calculate_consumption [nanDevice] 50 simDefault 0 = .ok .nan ∧
    calculate_consumption [strDevice] 50 simDefault 0 = .error .typeError :=
  ⟨(C5_nonfinite_propagates nanDevice 50 simDefault 0 "oops").1 rfl,
   (C5_nonfinite_propagates strDevice 50 simDefault 0 "oops").2 rfl⟩

/-- Once past the end timestamp, the sampling loop yields nothing, for any
fuel. -/
theorem sampleLoop_stop (e i : ℤ) (fuel : ℕ) (c : ℤ) (h : e < c) :
    sampleLoop e i fuel c = [] := by
  cases fuel with
  | zero => rfl
  | succ n => rw [sampleLoop, if_neg (by omega)]

/-- With positive interval and sufficient fuel, the sampling loop yields
exactly the arithmetic progression `c, c+i, ...` up to and including `e`. -/
theorem sampleLoop_eq_range (e i : ℤ) (hi : 0 < i) :
    ∀ (fuel : ℕ) (c : ℤ), c ≤ e → (e - c).toNat / i.toNat < fuel →
      sampleLoop e i fuel c =
        (List.range ((e - c).toNat / i.toNat + 1)).map (fun k : ℕ => c + (k : ℤ) * i) := by
  intro fuel
  induction fuel with
  | zero => intro c hc hfuel; exact absurd hfuel (Nat.not_lt_zero _)
  | succ fuel ih =>
    intro c hc hfuel
    rw [sampleLoop, if_pos hc]
    by_cases hnext : c + i ≤ e
    · have htoNat : (e - (c + i)).toNat = (e - c).toNat - i.toNat := by omega
      have hle : i.toNat ≤ (e - c).toNat := by omega
      have hipos : 0 < i.toNat := by omega
      have hdiv : (e - c).toNat / i.toNat = (e - (c + i)).toNat / i.toNat + 1 := by
        rw [htoNat]
        exact Nat.div_eq_sub_div hipos hle
      have hfuel2 : (e - (c + i)).toNat / i.toNat < fuel := by omega
      rw [ih (c + i) hnext hfuel2, hdiv,
        List.range_succ_eq_map ((e - (c + i)).toNat / i.toNat + 1)]
      simp only [List.map_cons, List.map_map]
      congr 1
      · simp
      · apply List.map_congr_left
        intro k hk
        simp only [Function.comp_apply]
        push_cast
        ring
    · have hlt : (e - c).toNat < i.toNat := by omega
      rw [Nat.div_eq_of_lt hlt, sampleLoop_stop e i fuel (c + i) (by omega)]
      rw [show List.range 1 = [0] from rfl]
      simp

/-- The batch generator's timestamp list is the inclusive arithmetic
progression from `start` to `end` with the requested step. -/
theorem sampleTimestamps_eq_range (s e i : ℤ) (hi : 0 < i) (hse : s ≤ e) :
    sampleTimestamps s e i =
      (List.range ((e - s).toNat / i.toNat + 1)).map (fun k : ℕ => s + (k : ℤ) * i) := by
  rw [sampleTimestamps, if_pos hi]
  exact sampleLoop_eq_range e i hi _ s hse (Nat.lt_succ_of_le (Nat.div_le_self _ _))

/-- **C7.** For `start ≤ end` and positive interval, the batch generator
samples exactly the timestamps `start, start+interval, ...` up to and
including `end` (`⌊(end-start)/interval⌋ + 1` of them — a 24-hour range at
a 1-hour interval yields exactly 25 samples), and every sample's
simulation time is `int(start + (t - start) * time_speed)`, computed from
the request range alone (no wall-clock input appears), so identical inputs
yield identical outputs. -/
theorem C7_batch_generator (start_t end_t interval : ℤ) (speed : ℚ)
    (hi : 0 < interval) (hse : start_t ≤ end_t) :
    sampleTimestamps start_t end_t interval =
      (List.range ((end_t - start_t).toNat / interval.toNat + 1)).map
        (fun k : ℕ => start_t + (k : ℤ) * interval) ∧
    (sampleTimestamps 0 86400 3600).length = 25 ∧
    ∀ p ∈ generateSamplePoints start_t end_t interval speed,
      p.2 = pyTrunc ((start_t : ℚ) + ((p.1 : ℚ) - (start_t : ℚ)) * speed) := by
  refine ⟨sampleTimestamps_eq_range _ _ _ hi hse, ?_, ?_⟩
  · rw [sampleTimestamps_eq_range 0 86400 3600 (by norm_num) (by norm_num)]
    simp
  · intro p hp
    simp only [generateSamplePoints, List.mem_map] at hp
    obtain ⟨t, ht, rfl⟩ := hp
    rfl

/-- Witness for C7 over the 24-hour range at a 1-hour interval, speed 1. -/
theorem C7_batch_generator_witness :
    sampleTimestamps 0 86400 3600 =
      (List.range (((86400 : ℤ) - 0).toNat / (3600 : ℤ).toNat + 1)).map
        (fun k : ℕ => (0 : ℤ) + (k : ℤ) * 3600) ∧
    (sampleTimestamps 0 86400 3600).length = 25 ∧
    ∀ p ∈ generateSamplePoints 0 86400 3600 1,
      p.2 = pyTrunc ((0 : ℚ) + ((p.1 : ℚ) - (0 : ℚ)) * 1) := by
  exact C7_batch_generator 0 86400 3600 1 (by norm_num) (by norm_num)

/-- Deactivating the id of the unique active simulation leaves no active
simulation among the previously stored ones. -/
theorem countP_desactive_of_unique :
    ∀ (sims : List Simulation) (s₀ : Simulation),
      sims.countP (fun s => s.is_active) = 1 →
      sims.find? (fun s => s.is_active) = some s₀ →
      (desactive_simulation s₀.id sims).countP (fun s => s.is_active) = 0 := by
  intro sims
  induction sims with
  | nil => intro s₀ _ hfind; cases hfind
  | cons a l ih =>
    intro s₀ hcount hfind
    by_cases ha : a.is_active
    · rw [List.find?_cons_of_pos _ (by simpa using ha)] at hfind
      have hs₀ : s₀ = a := by injection hfind with h; exact h.symm
      subst hs₀
      have hl : l.countP (fun s => s.is_active) = 0 := by
        rw [List.countP_cons, if_pos (by simpa using ha)] at hcount
        omega
      have hl0 : ∀ x ∈ l, ¬ (x.is_active = true) := List.countP_eq_zero.mp hl
      simp only [desactive_simulation, List.map_cons, if_pos rfl]
      rw [List.countP_cons]
      have htail : (l.map fun s =>
          if s.id = s₀.id then { s with is_active := false } else s).countP
            (fun s => s.is_active) = 0 := by
        rw [List.countP_eq_zero]
        intro y hy
        obtain ⟨x, hx, rfl⟩ := List.mem_map.mp hy
        by_cases hid : x.id = s₀.id
        · simp [hid]
        · simp only [if_neg hid]
          exact hl0 x hx
      rw [htail]
      simp
    · rw [List.find?_cons_of_neg _ (by simpa using ha)] at hfind
      have hcount' : l.countP (fun s => s.is_active) = 1 := by
        rw [List.countP_cons] at hcount
        simpa [ha] using hcount
      have hrec := ih s₀ hcount' hfind
      simp only [desactive_simulation, List.map_cons] at hrec ⊢
      rw [List.countP_cons]
      have hhead : ((if a.id = s₀.id then { a with is_active := false } else a).is_active) = false := by
        by_cases hid : a.id = s₀.id
        · simp [hid]
        · simp only [if_neg hid]
          exact Bool.not_eq_true _ ▸ (by simpa using ha)
      rw [hrec]
      simp [hhead]

/-- **C9 (counterexample).** Starting from a state with exactly one active
simulation, creating a simulation whose requested `is_active` flag is
`false` deactivates the previously active record and leaves *zero* active
simulations, violating the single-active invariant. -/
theorem C9_create_simulation_counterexample :
    activeCount [(⟨1, true, "W", "seconds", 1, none⟩ : Simulation)] = 1 ∧
    (create_simulation_service ⟨0, false, "W", "seconds", 1, none⟩ 2
        [(⟨1, true, "W", "seconds", 1, none⟩ : Simulation)]).map activeCount =
      some 0 := by
  exact ⟨rfl, rfl⟩

/-- **C9 (amended).** When exactly one simulation is active and the
*requested* simulation is itself active, `create_simulation_service`
(with a fresh id) again leaves exactly one active simulation — the
previously active one is deactivated and the new one is the single active
record.  (With a request whose `is_active` is false, the operation leaves
zero active simulations, as the counterexample shows.) -/
theorem C9_create_simulation_single_active (request : Simulation)
    (new_id : ℕ) (sims : List Simulation)
    (hone : activeCount sims = 1) (hreq : request.is_active = true)
    (hfresh : new_id ∉ sims.map Simulation.id) :
    ∃ l, create_simulation_service request new_id sims = some l ∧
      activeCount l = 1 := by
  have hpos : 0 < sims.countP (fun s => s.is_active) := by
    unfold activeCount at hone
    omega
  have hex : ∃ a ∈ sims, (fun s : Simulation => s.is_active) a :=
    List.countP_pos_iff.mp hpos
  have hsome : (sims.find? (fun s => s.is_active)).isSome :=
    List.find?_isSome.mpr hex
  obtain ⟨s₀, hfind⟩ := Option.isSome_iff_exists.mp hsome
  have hs₀active : s₀.is_active := by simpa using List.find?_some hfind
  have hs₀mem : s₀ ∈ sims := List.mem_of_find?_eq_some hfind
  refine ⟨desactive_simulation s₀.id (sims ++ [{ request with id := new_id }]), ?_, ?_⟩
  · unfold create_simulation_service
    rw [show get_first_active_simulation sims = some s₀ from hfind]
    simp [hs₀active]
  · have hid : new_id ≠ s₀.id := by
      intro h
      exact hfresh (h ▸ List.mem_map_of_mem Simulation.id hs₀mem)
    unfold activeCount desactive_simulation
    rw [List.map_append, List.countP_append]
    have h₁ : (sims.map fun s =>
        if s.id = s₀.id then { s with is_active := false } else s).countP
          (fun s => s.is_active) = 0 :=
      countP_desactive_of_unique sims s₀ hone hfind
    have h₂ : ([{ request with id := new_id }].map fun s =>
        if s.id = s₀.id then { s with is_active := false } else s).countP
          (fun s => s.is_active) = 1 := by
      simp only [List.map_cons, List.map_nil]
      rw [if_neg (by simpa using hid)]
      simp [hreq]
    rw [h₁, h₂]

/-- Witness for C9's amended theorem: one active simulation, an active
request, fresh id 2. -/
theorem C9_create_simulation_single_active_witness :
    ∃ l, create_simulation_service ⟨0, true, "kW", "minutes", 2, none⟩ 2
        [(⟨1, true, "W", "seconds", 1, none⟩ : Simulation)] = some l ∧
      activeCount l = 1 :=
  C9_create_simulation_single_active ⟨0, true, "kW", "minutes", 2, none⟩ 2
    [(⟨1, true, "W", "seconds", 1, none⟩ : Simulation)] rfl rfl (by decide)

/-- The selection `foldl` appends the same filtered list once per
requested id. -/
theorem foldl_append_eq_flatten_replicate (X : List DeviceSimulation) :
    ∀ (ids : List ℕ) (acc : List DeviceSimulation),
      ids.foldl (fun a _ => a ++ X) acc =
        acc ++ (List.replicate ids.length X).flatten := by
  intro ids
  induction ids with
  | nil => intro acc; simp
  | cons j t ih =>
    intro acc
    simp only [List.foldl_cons, List.length_cons, List.replicate_succ,
      List.flatten_cons]
    rw [ih (acc ++ X), List.append_assoc]

/-- `selectDevices` with a non-empty id list is the filtered device list
repeated once per requested id. -/
theorem selectDevices_some_eq (ids : List ℕ) (devs : List DeviceSimulation)
    (hne : ids ≠ []) :
    selectDevices (some ids) devs =
      (List.replicate ids.length (devs.filter (fun d => d.id ∈ ids))).flatten := by
  show (if ids = [] then devs
    else ids.foldl (fun device_simulations _ =>
      device_simulations ++ devs.filter (fun d => d.id ∈ ids)) []) =
    (List.replicate ids.length (devs.filter (fun d => d.id ∈ ids))).flatten
  rw [if_neg hne, foldl_append_eq_flatten_replicate _ ids []]
  simp

/-- **C10.** With `device_ids` absent every meter device is evaluated
exactly once; with a non-empty `device_ids` of n entries, the evaluated
list contains the full matching set once per requested id: a device id
k ∈ ids occurs n times as often as in the meter's device list, an id
outside ids never occurs, and any per-device quantity f summed over the
evaluated list is n times its sum over the matching devices — so each
matching device is counted n times in every sample's total. -/
theorem C10_device_ids_duplication (ids : List ℕ)
    (devs : List DeviceSimulation) (k : ℕ) (f : DeviceSimulation → ℚ)
    (hne : ids ≠ []) :
    selectDevices none devs = devs ∧
    (k ∈ ids →
      (selectDevices (some ids) devs).countP (fun d => d.id = k) =
        ids.length * devs.countP (fun d => d.id = k)) ∧
    (k ∉ ids →
      (selectDevices (some ids) devs).countP (fun d => d.id = k) = 0) ∧
    ((selectDevices (some ids) devs).map f).sum =
      (ids.length : ℚ) * ((devs.filter (fun d => d.id ∈ ids)).map f).sum := by
  refine ⟨rfl, ?_, ?_, ?_⟩
  · intro hk
    rw [selectDevices_some_eq ids devs hne, List.countP_flatten,
      List.map_replicate, List.sum_replicate, smul_eq_mul]
    congr 1
    rw [List.countP_filter]
    apply List.countP_congr
    intro d _
    by_cases hd : d.id = k
    · simp [hd, hk]
    · simp [hd]
  · intro hk
    rw [selectDevices_some_eq ids devs hne, List.countP_flatten,
      List.map_replicate, List.sum_replicate, smul_eq_mul]
    have : (devs.filter (fun d => d.id ∈ ids)).countP (fun d => d.id = k) = 0 := by
      rw [List.countP_filter, List.countP_eq_zero]
      intro d _
      by_cases hd : d.id = k
      · simp [hd, hk]
      · simp [hd]
    rw [this, Nat.mul_zero]
  · rw [selectDevices_some_eq ids devs hne, List.map_flatten, List.map_replicate,
      List.sum_flatten, List.map_replicate, List.sum_replicate, nsmul_eq_mul]

/-- The two-device meter list used in the C10 witness. -/
def devsPair : List DeviceSimulation := [constDevice 5 10, constDevice 6 20]

/-- Witness for C10 at ids `[5, 7]` over `devsPair`: id 5 is counted
twice, id 9 never, and the consumption sum doubles. -/
theorem C10_device_ids_duplication_witness :
    selectDevices none devsPair = devsPair ∧
    (selectDevices (some [5, 7]) devsPair).countP (fun d => d.id = 5) =
      [5, 7].length * devsPair.countP (fun d => d.id = 5) ∧
    (selectDevices (some [5, 7]) devsPair).countP (fun d => d.id = 9) = 0 ∧
    ((selectDevices (some [5, 7]) devsPair).map
        (fun d => d.consumption_value)).sum =
      (([5, 7] : List ℕ).length : ℚ) *
        ((devsPair.filter (fun d => d.id ∈ [5, 7])).map
          (fun d => d.consumption_value)).sum :=
  ⟨(C10_device_ids_duplication [5, 7] devsPair 5
      (fun d => d.consumption_value) (by decide)).1,
   (C10_device_ids_duplication [5, 7] devsPair 5
      (fun d => d.consumption_value) (by decide)).2.1 (by decide),
   (C10_device_ids_duplication [5, 7] devsPair 9
      (fun d => d.consumption_value) (by decide)).2.2.1 (by decide),
   (C10_device_ids_duplication [5, 7] devsPair 5
      (fun d => d.consumption_value) (by decide)).2.2.2⟩

end BackendThesis
